import Mathlib

/-
  Verification of the elevation-mapping coordinator node
  (src/src/elevation_mapping_ros.cpp) against its specification.

  The coordinator is embedded shallowly:
  * the pose low-pass filter works on real vectors (Eigen::Vector3d /
    Eigen::Vector4d become `Vec3` / `Vec4` over ℝ);
  * the cached grid map, messages and submap geometry are embedded over ℚ
    so that concrete runs are decidable;
  * the external map-update engine (a Python module of this repository,
    not part of the translated C++ file) and the grid_map library's
    submap extraction are modelled from the spec, as marked below;
  * lock usage inside the callbacks is embedded separately as straight-line
    action traces annotated with the lock state.
-/

namespace ElevationMappingCupy

/-! ## Real vectors for the pose filter (Eigen::Vector3d / Eigen::Vector4d) -/

@[ext]
structure Vec3 where
  x : ℝ
  y : ℝ
  z : ℝ

@[ext]
structure Vec4 where
  x : ℝ
  y : ℝ
  z : ℝ
  w : ℝ

def smul3 (c : ℝ) (v : Vec3) : Vec3 := ⟨c * v.x, c * v.y, c * v.z⟩

def add3 (u v : Vec3) : Vec3 := ⟨u.x + v.x, u.y + v.y, u.z + v.z⟩

def sub3 (u v : Vec3) : Vec3 := ⟨u.x - v.x, u.y - v.y, u.z - v.z⟩

/-- Euclidean norm, as Eigen's `.norm()` on a 3-vector. -/
noncomputable def norm3 (v : Vec3) : ℝ := Real.sqrt (v.x ^ 2 + v.y ^ 2 + v.z ^ 2)

def smul4 (c : ℝ) (v : Vec4) : Vec4 := ⟨c * v.x, c * v.y, c * v.z, c * v.w⟩

def add4 (u v : Vec4) : Vec4 := ⟨u.x + v.x, u.y + v.y, u.z + v.z, u.w + v.w⟩

def sub4 (u v : Vec4) : Vec4 := ⟨u.x - v.x, u.y - v.y, u.z - v.z, u.w - v.w⟩

/-- Euclidean norm, as Eigen's `.norm()` on a 4-vector. -/
noncomputable def norm4 (v : Vec4) : ℝ := Real.sqrt (v.x ^ 2 + v.y ^ 2 + v.z ^ 2 + v.w ^ 2)

/-! ## Grid map data (grid_map::GridMap, embedded over ℚ) -/

/-- A layer matrix (Eigen matrix), row-major list of rows. -/
abbrev Mat := List (List ℚ)

/-- `Eigen::MatrixXd::Zero r c`. -/
def zeroMat (r c : ℕ) : Mat := List.replicate r (List.replicate c 0)

/-- C++ double-to-integer conversion truncates toward zero; this is what
happens to the metric lengths passed to `Eigen::MatrixXd::Zero`. -/
def ratTrunc (q : ℚ) : ℤ := q.num.tdiv q.den

def ratTruncNat (q : ℚ) : ℕ := (ratTrunc q).toNat

/-- Lookup of a layer's data by name (grid_map's layer storage). -/
def lookupLayer : List (String × Mat) → String → Option Mat
  | [], _ => none
  | p :: rest, n => if p.1 = n then some p.2 else lookupLayer rest n

structure GridMap where
  frameId : String
  resolution : ℚ
  sizeX : ℕ
  sizeY : ℕ
  posX : ℚ
  posY : ℚ
  layerData : List (String × Mat)
deriving DecidableEq

/-- grid_map keeps `length = size * resolution` (metric side length). -/
def GridMap.lengthX (m : GridMap) : ℚ := (m.sizeX : ℚ) * m.resolution

def GridMap.lengthY (m : GridMap) : ℚ := (m.sizeY : ℚ) * m.resolution

def GridMap.layers (m : GridMap) : List String := m.layerData.map Prod.fst

/-- `grid_map::GridMap::exists(layer)`. -/
def GridMap.existsLayer (m : GridMap) (n : String) : Bool :=
  (lookupLayer m.layerData n).isSome

/-- `grid_map::GridMap::add(layer, data)`: overwrite the layer if present,
otherwise append it. -/
def GridMap.addLayer (m : GridMap) (n : String) (mat : Mat) : GridMap :=
  if m.existsLayer n then
    { m with layerData := m.layerData.map (fun p => if p.1 = n then (n, mat) else p) }
  else
    { m with layerData := m.layerData ++ [(n, mat)] }

/-- A default-constructed `grid_map::GridMap`: no layers, zero geometry. -/
def defaultGridMap : GridMap :=
  { frameId := "", resolution := 0, sizeX := 0, sizeY := 0, posX := 0, posY := 0,
    layerData := [] }

/-- The requested rectangle (center `cx, cy`, metric side lengths `lx, ly`)
lies fully inside the bounds of map `m`. -/
def rectInside (m : GridMap) (cx cy lx ly : ℚ) : Prop :=
  m.posX - m.lengthX / 2 ≤ cx - lx / 2 ∧ cx + lx / 2 ≤ m.posX + m.lengthX / 2 ∧
  m.posY - m.lengthY / 2 ≤ cy - ly / 2 ∧ cy + ly / 2 ≤ m.posY + m.lengthY / 2

instance (m : GridMap) (cx cy lx ly : ℚ) : Decidable (rectInside m cx cy lx ly) := by
  unfold rectInside
  infer_instance

/-- Modelled from the spec: `grid_map::GridMap::getSubmap` belongs to the
external grid_map library (an out-of-scope collaborator, spec §4.7): the
extraction never raises, returns the best-effort region overlapping the map
("still returns whatever overlapping region exists"), and reports
`success = false` exactly when the requested rectangle is not fully inside
the map bounds. Cell-level data transfer is out of scope; the layer data is
carried over unchanged. -/
def GridMap.getSubmap (m : GridMap) (cx cy lx ly : ℚ) : GridMap × Bool :=
  let rLoX := cx - lx / 2
  let rHiX := cx + lx / 2
  let rLoY := cy - ly / 2
  let rHiY := cy + ly / 2
  let loX := max (m.posX - m.lengthX / 2) rLoX
  let hiX := min (m.posX + m.lengthX / 2) rHiX
  let loY := max (m.posY - m.lengthY / 2) rLoY
  let hiY := min (m.posY + m.lengthY / 2) rHiY
  let iLX := max 0 (hiX - loX)
  let iLY := max 0 (hiY - loY)
  ({ frameId := m.frameId, resolution := m.resolution,
     sizeX := ratTruncNat (iLX / m.resolution), sizeY := ratTruncNat (iLY / m.resolution),
     posX := (loX + hiX) / 2, posY := (loY + hiY) / 2,
     layerData := m.layerData },
   decide (rectInside m cx cy lx ly))

/-! ## Grid map messages (grid_map_msgs::GridMap, GridMapRosConverter) -/

structure GridMapMsg where
  frameId : String
  resolution : ℚ
  lengthX : ℚ
  lengthY : ℚ
  posX : ℚ
  posY : ℚ
  layers : List String
  data : List (String × Mat)
deriving DecidableEq

/-- `GridMapRosConverter::toMessage(map, msg)`: serialize all layers. -/
def toMessage (m : GridMap) : GridMapMsg :=
  { frameId := m.frameId, resolution := m.resolution,
    lengthX := m.lengthX, lengthY := m.lengthY, posX := m.posX, posY := m.posY,
    layers := m.layers, data := m.layerData }

/-- `GridMapRosConverter::toMessage(map, layers, msg)`: serialize only the
named layers. -/
def toMessageLayers (m : GridMap) (ls : List String) : GridMapMsg :=
  { frameId := m.frameId, resolution := m.resolution,
    lengthX := m.lengthX, lengthY := m.lengthY, posX := m.posX, posY := m.posY,
    layers := ls,
    data := ls.filterMap (fun n => (lookupLayer m.layerData n).map (fun mat => (n, mat))) }

/-! ## The map-update engine (the repository's Python module, out of src/) -/

/-- A sensor-to-map rigid transform (rotation and translation), as produced
by the transform lookup. -/
structure Transform where
  rotation : List (List ℚ)
  translation : List ℚ
deriving DecidableEq

/-- One recorded call to the engine's `input`. -/
structure ScanInput where
  points : ℕ
  rotation : List (List ℚ)
  translation : List ℚ
  positionError : ℝ
  orientationError : ℝ

/-- Modelled from the spec: the map-update engine (`map_`, the repository's
Python `ElevationMap` class, not among the translated sources) is opaque
behind `initialize / input / move_to / get_grid_map / clear` (spec §4.3).
Its state is abstracted as the grid map `get_grid_map` would produce, the
current recentering position, and a ghost log of `input` calls. -/
structure Engine where
  curMap : GridMap
  center : ℝ × ℝ
  inputLog : List ScanInput

def initEngine : Engine := { curMap := defaultGridMap, center := (0, 0), inputLog := [] }

/-- Modelled from the spec: `input` fuses one scan into the engine's map;
the fusion algorithm itself is out of scope (spec §1, §4.3), so its effect
on the map is an arbitrary update function `fuse`. -/
def Engine.input (fuse : ScanInput → GridMap → GridMap) (e : Engine) (s : ScanInput) :
    Engine :=
  { e with curMap := fuse s e.curMap, inputLog := s :: e.inputLog }

/-- Modelled from the spec: `move_to` recenters the map (spec §4.3). -/
def Engine.moveTo (e : Engine) (p : ℝ × ℝ) : Engine := { e with center := p }

/-- Modelled from the spec: `clear` "resets engine state to empty" (spec
§4.3), so the map it would hand out is the default-constructed one. -/
def Engine.clear (e : Engine) : Engine := { e with curMap := defaultGridMap }

/-! ## Node state (the ElevationMappingNode members) -/

structure NodeState where
  mapFrameId : String
  positionAlpha : ℝ
  orientationAlpha : ℝ
  lowpassPosition : Vec3
  lowpassOrientation : Vec4
  positionError : ℝ
  orientationError : ℝ
  enablePointCloudPublishing : Bool
  recordableFps : ℚ
  recordableTimer : Option ℚ
  gridMap : GridMap
  engine : Engine

/-- The recognized configuration parameters (source lines 27-33). -/
structure Config where
  mapFrame : String
  positionLowpassAlpha : ℝ
  orientationLowpassAlpha : ℝ
  recordableFps : ℚ
  enablePointcloudPublishing : Bool

/-- The parameter defaults of source lines 29-33. -/
def defaultConfig : Config :=
  { mapFrame := "map", positionLowpassAlpha := 0.2, orientationLowpassAlpha := 0.2,
    recordableFps := 3, enablePointcloudPublishing := false }

/-- The constructor (source lines 13-54): member initializers, parameter
loading, `gridMap_.setFrameId`, and the recordable timer created only when
`recordableFps_ > 0`, with period `1.0 / (recordableFps_ + 0.00001)`. -/
def initState (cfg : Config) : NodeState :=
  { mapFrameId := cfg.mapFrame
    positionAlpha := cfg.positionLowpassAlpha
    orientationAlpha := cfg.orientationLowpassAlpha
    lowpassPosition := ⟨0, 0, 0⟩
    lowpassOrientation := ⟨0, 0, 0, 1⟩
    positionError := 0
    orientationError := 0
    enablePointCloudPublishing := cfg.enablePointcloudPublishing
    recordableFps := cfg.recordableFps
    recordableTimer :=
      if 0 < cfg.recordableFps then some (1 / (cfg.recordableFps + 1 / 100000)) else none
    gridMap := { defaultGridMap with frameId := cfg.mapFrame }
    engine := initEngine }

/-! ## Messages published by the node -/

inductive PubMsg where
  | mapRaw (m : GridMapMsg)
  | alive
  | points (layer : String) (m : GridMap)
  | recordable (m : GridMapMsg)
deriving DecidableEq

/-- An incoming point cloud: frame id, stamp, and its point set abstracted
to the point count (the engine consumes the points opaquely). -/
structure Cloud where
  frameId : String
  stamp : ℚ
  points : ℕ

/-- An incoming pose-with-covariance message (the fields the callback
reads). -/
structure PoseMsg where
  px : ℝ
  py : ℝ
  pz : ℝ
  ox : ℝ
  oy : ℝ
  oz : ℝ
  ow : ℝ

def rawPosition3 (p : PoseMsg) : Vec3 := ⟨p.px, p.py, p.pz⟩

def rawOrientation4 (p : PoseMsg) : Vec4 := ⟨p.ox, p.oy, p.oz, p.ow⟩

/-! ## The callbacks (source lines 57-177) -/

/-- `poseCallback` (source lines 101-112): `move_to`, then the two
exponential moving averages, then the two error norms computed from the
just-updated smoothed state. -/
noncomputable def poseCallback (s : NodeState) (p : PoseMsg) : NodeState :=
  let engine1 := s.engine.moveTo (p.px, p.py)
  let position3 := rawPosition3 p
  let orientation := rawOrientation4 p
  let lp := add3 (smul3 s.positionAlpha position3)
                 (smul3 (1 - s.positionAlpha) s.lowpassPosition)
  let lo := add4 (smul4 s.orientationAlpha orientation)
                 (smul4 (1 - s.orientationAlpha) s.lowpassOrientation)
  { s with
    engine := engine1
    lowpassPosition := lp
    lowpassOrientation := lo
    positionError := norm3 (sub3 position3 lp)
    orientationError := norm4 (sub4 orientation lo) }

/-- `publishAsPointCloud` (source lines 114-118): converts the cached map's
elevation layer to a point cloud message. -/
def publishAsPointCloud (s : NodeState) : PubMsg := PubMsg.points "elevation" s.gridMap

/-- `pointcloudCallback` (source lines 57-99). The transform lookup's
outcome is the environment's answer, passed as `tf`; on a
`tf::TransformException` the callback logs and returns (line 74-77).
On success: `map_.input`, then under the lock `get_grid_map` into the
cached map and serialization, then the map and heartbeat publishes, then
the optional point-cloud republish. -/
def pointcloudCallback (fuse : ScanInput → GridMap → GridMap) (s : NodeState)
    (cloud : Cloud) (tf : Except String Transform) : NodeState × List PubMsg :=
  match tf with
  | Except.error _ => (s, [])
  | Except.ok t =>
      let engine1 := Engine.input fuse s.engine
        { points := cloud.points
          rotation := t.rotation
          translation := t.translation
          positionError := s.positionError
          orientationError := s.orientationError }
      let s1 := { s with engine := engine1, gridMap := engine1.curMap }
      let msg := toMessage s1.gridMap
      (s1, [PubMsg.mapRaw msg, PubMsg.alive] ++
        (if s.enablePointCloudPublishing then [publishAsPointCloud s1] else []))

/-! ## The submap service (source lines 120-152) -/

structure SubmapRequest where
  positionX : ℚ
  positionY : ℚ
  lengthX : ℚ
  lengthY : ℚ
  layers : List String
deriving DecidableEq

/-- The nine auxiliary layers added by the handler (source lines 131-139). -/
def auxLayerNames : List String :=
  ["horizontal_variance_x", "horizontal_variance_y", "horizontal_variance_xy",
   "time", "color", "lowest_scan_point", "sensor_x_at_lowest_scan",
   "sensor_y_at_lowest_scan", "sensor_z_at_lowest_scan"]

/-- The augmentation step of the handler (source lines 129-139): add the
nine auxiliary layers to the extracted submap as zero matrices of
dimensions `Zero(length(0), length(1))` — the metric side lengths
converted (truncated) to matrix dimensions. -/
def submapAux (sub0 : GridMap) : GridMap :=
  auxLayerNames.foldl
    (fun m n => m.addLayer n
      (zeroMat (ratTruncNat sub0.lengthX) (ratTruncNat sub0.lengthY)))
    sub0

/-- The extraction-plus-augmentation part of the handler (source lines
122-139). -/
def submapForRequest (s : NodeState) (req : SubmapRequest) : GridMap × Bool :=
  let pr := s.gridMap.getSubmap req.positionX req.positionY req.lengthX req.lengthY
  (submapAux pr.1, pr.2)

/-- `getSubmap` (source lines 120-152): the serialization step picks the
requested layers when the request names any, otherwise all layers; the
return value is the extraction's success flag. -/
def getSubmap (s : NodeState) (req : SubmapRequest) : GridMapMsg × Bool :=
  let pr := submapForRequest s req
  (if req.layers.isEmpty then toMessage pr.1 else toMessageLayers pr.1 req.layers,
   pr.2)

/-! ## The remaining services and the timer (source lines 154-177) -/

/-- `clearMap` (source lines 154-159): forwards to the engine's `clear`
and returns `true`. -/
def clearMap (s : NodeState) : NodeState × Bool :=
  ({ s with engine := s.engine.clear }, true)

/-- `setPublishPoint` (source lines 161-165). -/
def setPublishPoint (s : NodeState) (data : Bool) : NodeState × Bool :=
  ({ s with enablePointCloudPublishing := data }, true)

/-- `timerCallback` (source lines 167-177): if the cached map has the
elevation layer, serialize just that layer and publish it on the
recordable channel. -/
def timerCallback (s : NodeState) : List PubMsg :=
  if s.gridMap.existsLayer "elevation" then
    [PubMsg.recordable (toMessageLayers s.gridMap ["elevation"])]
  else []

/-- A tick of the recordable timer at the node level: the callback only
ever runs when the timer was created (source lines 48-52). -/
def nodeTimerEvent (s : NodeState) : NodeState × List PubMsg :=
  match s.recordableTimer with
  | none => (s, [])
  | some _ => (s, timerCallback s)

/-! ## Lock-usage traces

The shared-map lock discipline of the callbacks is embedded as
straight-line traces of the actions touching the cached grid map, the
message serialization and the publish calls, in source order, with the
scoped-lock acquire/release points made explicit. -/

inductive Act where
  | lockAcq : Act
  | lockRel : Act
  | mapRead : Act
  | mapWrite : Act
  | serialize : Act
  | publish : Act
deriving DecidableEq

/-- Annotate each action of a trace with whether the shared-map lock is
held when it executes. -/
def lockAnnotate : List Act → Bool → List (Act × Bool)
  | [], _ => []
  | Act.lockAcq :: r, _ => (Act.lockAcq, true) :: lockAnnotate r true
  | Act.lockRel :: r, _ => (Act.lockRel, false) :: lockAnnotate r false
  | a :: r, held => (a, held) :: lockAnnotate r held

/-- The lock-relevant actions of `pointcloudCallback` (source lines 83-94
plus `publishAsPointCloud`, lines 114-118): lock (83), `get_grid_map` into
the cached map (84), `toMessage` reading the cached map and serializing
(86), explicit unlock (87), the map and heartbeat publishes (89-90), and,
when enabled, the point-cloud republish reading the cached map (116) and
publishing (117). -/
def pointcloudLockTrace (tfOk enablePub : Bool) : List Act :=
  if tfOk then
    [Act.lockAcq, Act.mapWrite, Act.mapRead, Act.serialize, Act.lockRel,
     Act.publish, Act.publish]
      ++ (if enablePub then [Act.mapRead, Act.serialize, Act.publish] else [])
  else []

/-- The lock-relevant actions of `getSubmap` (source lines 120-152): the
cached-map read at line 128 and the serialization at line 142/149; no lock
is ever taken. -/
def getSubmapLockTrace : List Act := [Act.mapRead, Act.serialize]

/-- The lock-relevant actions of `timerCallback` (source lines 167-177):
the `exists` check reading the cached map (170), then, when the elevation
layer exists, lock (172), serialization reading the cached map (173), the
publish (174), and the scoped release at the end of the block (175). -/
def timerLockTrace (hasElevation : Bool) : List Act :=
  Act.mapRead ::
    (if hasElevation then
      [Act.lockAcq, Act.mapRead, Act.serialize, Act.publish, Act.lockRel]
    else [])

/-- The discipline asserted by the spec: every cached-map access holds the
lock, and serialization and publishing happen outside the lock. -/
def lockDiscipline (t : List Act) : Bool :=
  (lockAnnotate t false).all fun p =>
    (!(p.1 == Act.mapRead) || p.2) && (!(p.1 == Act.mapWrite) || p.2) &&
    (!(p.1 == Act.serialize) || !p.2) && (!(p.1 == Act.publish) || !p.2)

/-! ## The pose filter as the spec words it (spec §4.1, §8) -/

/-- Spec §4.1: `smoothed = alpha*raw + (1-alpha)*smoothed`, componentwise
on the 3D position. -/
def emaStep3 (alpha : ℝ) (raw smoothed : Vec3) : Vec3 :=
  add3 (smul3 alpha raw) (smul3 (1 - alpha) smoothed)

/-- Spec §4.1: `smoothed = alpha*raw + (1-alpha)*smoothed`, componentwise
on the 4D orientation. -/
def emaStep4 (alpha : ℝ) (raw smoothed : Vec4) : Vec4 :=
  add4 (smul4 alpha raw) (smul4 (1 - alpha) smoothed)

/-- Spec §8: the exponential-moving-average recurrence applied once per
sample, in arrival order, from a given initial state. -/
def emaIter (alpha : ℝ) (s0 : Vec3) : List Vec3 → Vec3
  | [] => s0
  | r :: rs => emaIter alpha (emaStep3 alpha r s0) rs

/-- Feeding a finite sequence of pose samples to the node, in order. -/
noncomputable def runPoses (s : NodeState) (ps : List PoseMsg) : NodeState :=
  ps.foldl poseCallback s

/-! ## Sample inputs used by witnesses and counterexamples -/

/-- A 2x2 map with an elevation layer, as cached after a successful scan. -/
def sampleMap : GridMap :=
  { frameId := "map", resolution := 1, sizeX := 2, sizeY := 2, posX := 0, posY := 0,
    layerData := [("elevation", [[1, 2], [3, 4]])] }

/-- A 10x10 map at 0.1 m resolution: metric side length 1 m, so the
truncated metric length (1) differs from the cell count (10). -/
def sampleFineMap : GridMap :=
  { frameId := "map", resolution := 1 / 10, sizeX := 10, sizeY := 10,
    posX := 0, posY := 0, layerData := [("elevation", [[0]])] }

/-- A node state whose cache holds `sampleMap`. -/
def sampleState : NodeState :=
  { mapFrameId := "map"
    positionAlpha := 0.2
    orientationAlpha := 0.2
    lowpassPosition := ⟨0, 0, 0⟩
    lowpassOrientation := ⟨0, 0, 0, 1⟩
    positionError := 0
    orientationError := 0
    enablePointCloudPublishing := false
    recordableFps := 3
    recordableTimer := some (100000 / 300001)
    gridMap := sampleMap
    engine := initEngine }

/-- A node state whose cache holds `sampleFineMap`. -/
def sampleFineState : NodeState := { sampleState with gridMap := sampleFineMap }

/-- A submap request centered at the origin with side length 1 and no
explicit layer list. -/
def sampleRequest : SubmapRequest :=
  { positionX := 0, positionY := 0, lengthX := 1, lengthY := 1, layers := [] }

/-- A configuration with the throttled channel disabled. -/
def offConfig : Config := { defaultConfig with recordableFps := 0 }

/-- A pose sample whose orientation is the identity quaternion. -/
def samplePose : PoseMsg :=
  { px := 1, py := 2, pz := 3, ox := 0, oy := 0, oz := 0, ow := 1 }

/-! # Helper lemmas -/

theorem sub4_emaStep4 (alpha : ℝ) (r q : Vec4) :
    sub4 r (emaStep4 alpha r q) = smul4 (1 - alpha) (sub4 r q) := by
  simp only [sub4, emaStep4, add4, smul4, Vec4.mk.injEq]
  refine ⟨by ring, by ring, by ring, by ring⟩

theorem norm4_smul (c : ℝ) (v : Vec4) : norm4 (smul4 c v) = |c| * norm4 v := by
  simp only [norm4, smul4]
  rw [show (c * v.x) ^ 2 + (c * v.y) ^ 2 + (c * v.z) ^ 2 + (c * v.w) ^ 2
        = c ^ 2 * (v.x ^ 2 + v.y ^ 2 + v.z ^ 2 + v.w ^ 2) from by ring,
      Real.sqrt_mul (sq_nonneg c), Real.sqrt_sq_eq_abs]

theorem runPoses_lowpassPosition (s : NodeState) (ps : List PoseMsg) :
    (runPoses s ps).lowpassPosition
      = emaIter s.positionAlpha s.lowpassPosition (ps.map rawPosition3) := by
  induction ps generalizing s with
  | nil => rfl
  | cons p rest ih =>
      show (runPoses (poseCallback s p) rest).lowpassPosition = _
      rw [ih]
      rfl

theorem lookupLayer_map_overwrite (l : List (String × Mat)) (n : String) (mat : Mat)
    (h : (lookupLayer l n).isSome) :
    lookupLayer (l.map fun p => if p.1 = n then (n, mat) else p) n = some mat := by
  induction l with
  | nil => simp [lookupLayer] at h
  | cons p rest ih =>
      by_cases hp : p.1 = n
      · rw [List.map_cons, if_pos hp]
        simp [lookupLayer]
      · rw [List.map_cons, if_neg hp]
        rw [lookupLayer, if_neg hp]
        rw [lookupLayer, if_neg hp] at h
        exact ih h

theorem lookupLayer_map_overwrite_ne (l : List (String × Mat)) (n k : String) (mat : Mat)
    (hne : k ≠ n) :
    lookupLayer (l.map fun p => if p.1 = n then (n, mat) else p) k = lookupLayer l k := by
  induction l with
  | nil => rfl
  | cons p rest ih =>
      by_cases hp : p.1 = n
      · have hnk : ¬(n = k) := fun hh => hne hh.symm
        have hpk : ¬(p.1 = k) := fun hh => hne (hp ▸ hh).symm
        rw [List.map_cons, if_pos hp, lookupLayer, lookupLayer, if_neg hpk]
        simp only [if_neg hnk]
        exact ih
      · rw [List.map_cons, if_neg hp, lookupLayer, lookupLayer]
        by_cases hk : p.1 = k
        · rw [if_pos hk, if_pos hk]
        · rw [if_neg hk, if_neg hk]
          exact ih

theorem lookupLayer_append_right (l : List (String × Mat)) (n : String) (mat : Mat)
    (h : lookupLayer l n = none) :
    lookupLayer (l ++ [(n, mat)]) n = some mat := by
  induction l with
  | nil => simp [lookupLayer]
  | cons p rest ih =>
      rw [lookupLayer] at h
      by_cases hp : p.1 = n
      · rw [if_pos hp] at h
        cases h
      · rw [if_neg hp] at h
        rw [List.cons_append, lookupLayer, if_neg hp]
        exact ih h

theorem lookupLayer_append_single_ne (l : List (String × Mat)) (n k : String) (mat : Mat)
    (hne : k ≠ n) :
    lookupLayer (l ++ [(n, mat)]) k = lookupLayer l k := by
  induction l with
  | nil =>
      have hnk : ¬(n = k) := fun hh => hne hh.symm
      simp [lookupLayer, hnk]
  | cons p rest ih =>
      rw [List.cons_append, lookupLayer, lookupLayer]
      by_cases hp : p.1 = k
      · rw [if_pos hp, if_pos hp]
      · rw [if_neg hp, if_neg hp]
        exact ih

theorem lookupLayer_addLayer_self (m : GridMap) (n : String) (mat : Mat) :
    lookupLayer (m.addLayer n mat).layerData n = some mat := by
  unfold GridMap.addLayer
  by_cases h : m.existsLayer n = true
  · rw [if_pos h]
    exact lookupLayer_map_overwrite _ _ _ h
  · rw [if_neg h]
    apply lookupLayer_append_right
    unfold GridMap.existsLayer at h
    exact Option.not_isSome_iff_eq_none.mp (by simpa using h)

theorem lookupLayer_addLayer_ne (m : GridMap) (n k : String) (mat : Mat)
    (hne : k ≠ n) :
    lookupLayer (m.addLayer n mat).layerData k = lookupLayer m.layerData k := by
  unfold GridMap.addLayer
  by_cases h : m.existsLayer n = true
  · rw [if_pos h]
    exact lookupLayer_map_overwrite_ne _ _ _ _ hne
  · rw [if_neg h]
    exact lookupLayer_append_single_ne _ _ _ _ hne

theorem lookupLayer_foldl_addLayer_not_mem (ns : List String) (m : GridMap) (mat : Mat)
    (k : String) (hk : k ∉ ns) :
    lookupLayer ((ns.foldl (fun acc n => acc.addLayer n mat) m)).layerData k
      = lookupLayer m.layerData k := by
  induction ns generalizing m with
  | nil => rfl
  | cons n rest ih =>
      have h1 : k ≠ n := fun h => hk (by simp [h])
      have h2 : k ∉ rest := fun h => hk (by simp [h])
      show lookupLayer ((rest.foldl (fun acc n => acc.addLayer n mat) (m.addLayer n mat))).layerData k = _
      rw [ih _ h2, lookupLayer_addLayer_ne _ _ _ _ h1]

theorem lookupLayer_foldl_addLayer_mem (ns : List String) (hnd : ns.Nodup) (m : GridMap)
    (mat : Mat) (k : String) (hk : k ∈ ns) :
    lookupLayer ((ns.foldl (fun acc n => acc.addLayer n mat) m)).layerData k
      = some mat := by
  induction ns generalizing m with
  | nil => cases hk
  | cons n rest ih =>
      rcases List.mem_cons.mp hk with h | h
      · subst h
        have hnot : k ∉ rest := (List.nodup_cons.mp hnd).1
        show lookupLayer ((rest.foldl (fun acc n => acc.addLayer n mat) (m.addLayer k mat))).layerData k = some mat
        rw [lookupLayer_foldl_addLayer_not_mem _ _ _ _ hnot, lookupLayer_addLayer_self]
      · exact ih (List.nodup_cons.mp hnd).2 _ h

theorem auxLayerNames_nodup : auxLayerNames.Nodup := by decide

theorem lookupLayer_submapAux (sub0 : GridMap) (n : String) (hn : n ∈ auxLayerNames) :
    lookupLayer (submapAux sub0).layerData n
      = some (zeroMat (ratTruncNat sub0.lengthX) (ratTruncNat sub0.lengthY)) := by
  unfold submapAux
  exact lookupLayer_foldl_addLayer_mem auxLayerNames auxLayerNames_nodup _ _ n hn

theorem submapForRequest_fst (s : NodeState) (req : SubmapRequest) :
    (submapForRequest s req).1
      = submapAux (s.gridMap.getSubmap req.positionX req.positionY req.lengthX
          req.lengthY).1 := by
  simp only [submapForRequest]

theorem ratTruncNat_natCast (n : ℕ) : ratTruncNat (n : ℚ) = n := by
  unfold ratTruncNat ratTrunc
  rw [Rat.num_natCast, Rat.den_natCast]
  show (Int.ofNat (n / 1)).toNat = n
  simp

theorem ratTruncNat_eq_of_eq_natCast (q : ℚ) (n : ℕ) (h : q = (n : ℚ)) :
    ratTruncNat q = n := by
  rw [h, ratTruncNat_natCast]

/-! # Claim theorems -/

/-! # Claim theorems -/

/-- C1: when the transform lookup for a point-cloud callback fails, the
callback returns without calling the engine's `input`, leaves the cached
grid map identical to its pre-call state, and publishes nothing. -/
theorem claim_C1 (fuse : ScanInput → GridMap → GridMap) (s : NodeState)
    (cloud : Cloud) (err : String) :
    pointcloudCallback fuse s cloud (Except.error err) = (s, ([] : List PubMsg)) ∧
    (pointcloudCallback fuse s cloud (Except.error err)).1.gridMap = s.gridMap ∧
    (pointcloudCallback fuse s cloud (Except.error err)).1.engine.inputLog
      = s.engine.inputLog :=
  ⟨rfl, rfl, rfl⟩

/-- C3: on every pose callback the smoothed state is updated first by the
exponential moving average (independently for position and orientation,
with their own smoothing factors), and only then are the errors computed as
the Euclidean norm of raw minus the post-update smoothed state. -/
theorem claim_C3 (s : NodeState) (p : PoseMsg) :
    (poseCallback s p).lowpassPosition
        = emaStep3 s.positionAlpha (rawPosition3 p) s.lowpassPosition ∧
    (poseCallback s p).lowpassOrientation
        = emaStep4 s.orientationAlpha (rawOrientation4 p) s.lowpassOrientation ∧
    (poseCallback s p).positionError
        = norm3 (sub3 (rawPosition3 p) (poseCallback s p).lowpassPosition) ∧
    (poseCallback s p).orientationError
        = norm4 (sub4 (rawOrientation4 p) (poseCallback s p).lowpassOrientation) :=
  ⟨rfl, rfl, rfl, rfl⟩

/-- C7: after any finite sequence of pose samples, the smoothed position
equals the exponential-moving-average recurrence applied once per sample
starting from the initial state `(0, 0, 0)`. -/
theorem claim_C7 (cfg : Config) (ps : List PoseMsg) :
    (runPoses (initState cfg) ps).lowpassPosition
      = emaIter cfg.positionLowpassAlpha ⟨0, 0, 0⟩ (ps.map rawPosition3) := by
  rw [runPoses_lowpassPosition]
  rfl

/-- C8: the smoothed orientation accumulator starts at the identity
quaternion `(0, 0, 0, 1)`, so after the very first pose sample the
orientation error equals `(1 - orientationAlpha) * ‖raw - (0,0,0,1)‖`, and
it is `0` when the first raw orientation is the identity quaternion. -/
theorem claim_C8 (cfg : Config) (p : PoseMsg)
    (h : cfg.orientationLowpassAlpha ≤ 1) :
    (poseCallback (initState cfg) p).orientationError
        = (1 - cfg.orientationLowpassAlpha)
            * norm4 (sub4 (rawOrientation4 p) ⟨0, 0, 0, 1⟩) ∧
    (rawOrientation4 p = ⟨0, 0, 0, 1⟩ →
        (poseCallback (initState cfg) p).orientationError = 0) := by
  have key : (poseCallback (initState cfg) p).orientationError
      = norm4 (sub4 (rawOrientation4 p)
          (emaStep4 cfg.orientationLowpassAlpha (rawOrientation4 p) ⟨0, 0, 0, 1⟩)) := rfl
  constructor
  · rw [key, sub4_emaStep4, norm4_smul, abs_of_nonneg (by linarith)]
  · intro hq
    rw [key, hq, sub4_emaStep4, norm4_smul]
    have hz : sub4 (⟨0, 0, 0, 1⟩ : Vec4) ⟨0, 0, 0, 1⟩ = ⟨0, 0, 0, 0⟩ := by
      simp [sub4]
    rw [hz]
    simp [norm4]

theorem claim_C8_witness :
    defaultConfig.orientationLowpassAlpha ≤ 1 ∧
    (poseCallback (initState defaultConfig) samplePose).orientationError = 0 :=
  ⟨by norm_num [defaultConfig],
   (claim_C8 defaultConfig samplePose (by norm_num [defaultConfig])).2 rfl⟩

/-- C10: the clear-map handler only forwards to the engine's `clear` and
returns `true`; the cached grid map, the smoothed pose and orientation, the
uncertainty scalars, and the point-cloud-republishing flag are unchanged. -/
theorem claim_C10 (s : NodeState) :
    clearMap s = ({ s with engine := s.engine.clear }, true) ∧
    (clearMap s).1.gridMap = s.gridMap ∧
    (clearMap s).1.lowpassPosition = s.lowpassPosition ∧
    (clearMap s).1.lowpassOrientation = s.lowpassOrientation ∧
    (clearMap s).1.positionError = s.positionError ∧
    (clearMap s).1.orientationError = s.orientationError ∧
    (clearMap s).1.enablePointCloudPublishing = s.enablePointCloudPublishing ∧
    (clearMap s).2 = true :=
  ⟨rfl, rfl, rfl, rfl, rfl, rfl, rfl, rfl⟩

/-- C6: the throttled publish channel is disabled entirely when the
configured rate is not positive (no timer is created and a timer tick
publishes nothing), and when the rate is positive the timer period is the
guarded division `1 / (fps + 0.00001)`, whose denominator is nonzero. -/
theorem claim_C6 (cfg : Config) (s : NodeState) :
    (cfg.recordableFps ≤ 0 → (initState cfg).recordableTimer = none) ∧
    (s.recordableTimer = none → nodeTimerEvent s = (s, [])) ∧
    (0 < cfg.recordableFps →
      (initState cfg).recordableTimer
          = some (1 / (cfg.recordableFps + 1 / 100000)) ∧
      cfg.recordableFps + 1 / 100000 ≠ 0) := by
  refine ⟨fun h => ?_, fun h => ?_, fun h => ?_⟩
  · simp [initState, not_lt.mpr h]
  · unfold nodeTimerEvent
    rw [h]
  · refine ⟨by simp [initState, h], ?_⟩
    have h2 : (0 : ℚ) < 1 / 100000 := by norm_num
    exact ne_of_gt (by linarith)

theorem claim_C6_witness :
    (initState offConfig).recordableTimer = none ∧
    nodeTimerEvent (initState offConfig) = (initState offConfig, []) ∧
    (initState defaultConfig).recordableTimer = some (100000 / 300001) := by
  have h1 := (claim_C6 offConfig (initState offConfig)).1
    (by norm_num [offConfig, defaultConfig])
  have h2 := (claim_C6 offConfig (initState offConfig)).2.1 h1
  have h3 := ((claim_C6 defaultConfig (initState offConfig)).2.2
    (by norm_num [defaultConfig])).1
  refine ⟨h1, h2, ?_⟩
  rw [h3]
  norm_num [defaultConfig]

/-- C2 counterexample: the asserted lock discipline — every cached-map
access under the lock, serialization and publish outside it — fails on the
successful point-cloud callback (serialization happens inside the lock),
on the submap service (it reads the cached map with no lock at all), and
on the timer callback (its layer check reads the map outside the lock and
its publish happens inside it). -/
theorem claim_C2_counterexample :
    lockDiscipline getSubmapLockTrace = false ∧
    lockDiscipline (pointcloudLockTrace true false) = false ∧
    lockDiscipline (timerLockTrace true) = false := by decide

/-- C2 (amended): in the point-cloud callback the cached-map write, read
and full-map serialization happen while the lock is held and the map and
heartbeat publishes happen after release, but the optional point-cloud
republish reads, serializes and publishes with the lock released; the
submap service reads and serializes without ever taking the lock; the
timer callback performs its layer check outside the lock and both
serializes and publishes while holding it; the failed-transform trace is
empty. -/
theorem claim_C2 :
    ((lockAnnotate (pointcloudLockTrace true false) false).all fun p =>
        (!(p.1 == Act.mapRead) || p.2) && (!(p.1 == Act.mapWrite) || p.2) &&
        (!(p.1 == Act.serialize) || p.2) && (!(p.1 == Act.publish) || !p.2)) = true ∧
    (lockAnnotate (pointcloudLockTrace true true) false).drop 7
        = [(Act.mapRead, false), (Act.serialize, false), (Act.publish, false)] ∧
    ((lockAnnotate getSubmapLockTrace false).all fun p => !p.2) = true ∧
    (lockAnnotate (timerLockTrace true) false).head? = some (Act.mapRead, false) ∧
    (((lockAnnotate (timerLockTrace true) false).drop 1).all fun p =>
        (!(p.1 == Act.serialize) || p.2) && (!(p.1 == Act.publish) || p.2)) = true ∧
    pointcloudLockTrace false false = [] ∧
    pointcloudLockTrace false true = [] := by decide

/-- C4 counterexample: after a clear-map call with no intervening scan,
the submap response is computed from the stale cached map, not from the
engine's post-clear (default/empty) map: on a concrete cached map holding
an elevation layer the two differ. -/
theorem claim_C4_counterexample :
    ¬ ((getSubmap (clearMap sampleState).1 sampleRequest).1
        = (getSubmap { (clearMap sampleState).1 with
              gridMap := (clearMap sampleState).1.engine.curMap } sampleRequest).1) := by
  decide

/-- C4 (amended): a clear-map call followed immediately by a submap request
returns exactly what the request would have returned before the clear: the
handler reads the cached grid map, which clear-map does not refresh; the
engine's post-clear map is the default/empty one, and it only reaches the
cache on the next point-cloud scan. -/
theorem claim_C4 (s : NodeState) (req : SubmapRequest) :
    getSubmap (clearMap s).1 req = getSubmap s req ∧
    (clearMap s).1.gridMap = s.gridMap ∧
    (clearMap s).1.engine.curMap = defaultGridMap :=
  ⟨rfl, rfl, rfl⟩

/-- C5: the submap handler is total (embedded as a total function); it
reports `success = false` exactly when the requested rectangle is not fully
inside the map bounds, every auxiliary layer is zero-filled, and the
response serializes exactly the requested layers when the request names
any, otherwise all layers of the augmented submap. -/
theorem claim_C5 (s : NodeState) (req : SubmapRequest) :
    ((getSubmap s req).2 = false ↔
      ¬ rectInside s.gridMap req.positionX req.positionY req.lengthX req.lengthY) ∧
    (∀ n ∈ auxLayerNames,
      lookupLayer (submapForRequest s req).1.layerData n
        = some (zeroMat
            (ratTruncNat (s.gridMap.getSubmap req.positionX req.positionY
                req.lengthX req.lengthY).1.lengthX)
            (ratTruncNat (s.gridMap.getSubmap req.positionX req.positionY
                req.lengthX req.lengthY).1.lengthY))) ∧
    ((getSubmap s req).1.layers
      = if req.layers.isEmpty then (submapForRequest s req).1.layers
        else req.layers) := by
  refine ⟨?_, ?_, ?_⟩
  · have h2 : (getSubmap s req).2
        = decide (rectInside s.gridMap req.positionX req.positionY
            req.lengthX req.lengthY) := rfl
    rw [h2]
    exact decide_eq_false_iff_not
  · intro n hn
    rw [submapForRequest_fst]
    exact lookupLayer_submapAux _ n hn
  · by_cases h : req.layers.isEmpty <;>
      simp [getSubmap, h, toMessage, toMessageLayers]

theorem claim_C5_witness :
    lookupLayer (submapForRequest sampleState sampleRequest).1.layerData "time"
      = some (zeroMat
          (ratTruncNat (sampleState.gridMap.getSubmap sampleRequest.positionX
              sampleRequest.positionY sampleRequest.lengthX sampleRequest.lengthY).1.lengthX)
          (ratTruncNat (sampleState.gridMap.getSubmap sampleRequest.positionX
              sampleRequest.positionY sampleRequest.lengthX sampleRequest.lengthY).1.lengthY)) :=
  (claim_C5 sampleState sampleRequest).2.1 "time" (by decide)

/-- C9: each of the nine auxiliary layers is created as a zero matrix whose
row and column counts are the extracted submap's metric side lengths in
meters (cell count times resolution), truncated to integers — not the
submap's cell counts — and on a concrete fine-resolution map the truncated
metric length differs from the cell count. -/
theorem claim_C9 (s : NodeState) (req : SubmapRequest) :
    (∀ n ∈ auxLayerNames,
      lookupLayer (submapForRequest s req).1.layerData n
        = some (zeroMat
            (ratTruncNat (s.gridMap.getSubmap req.positionX req.positionY
                req.lengthX req.lengthY).1.lengthX)
            (ratTruncNat (s.gridMap.getSubmap req.positionX req.positionY
                req.lengthX req.lengthY).1.lengthY))) ∧
    (s.gridMap.getSubmap req.positionX req.positionY req.lengthX
        req.lengthY).1.lengthX
      = ((s.gridMap.getSubmap req.positionX req.positionY req.lengthX
          req.lengthY).1.sizeX : ℚ)
        * (s.gridMap.getSubmap req.positionX req.positionY req.lengthX
            req.lengthY).1.resolution ∧
    ratTruncNat (sampleFineMap.getSubmap 0 0 1 1).1.lengthX
        ≠ (sampleFineMap.getSubmap 0 0 1 1).1.sizeX := by
  refine ⟨?_, rfl, ?_⟩
  · intro n hn
    rw [submapForRequest_fst]
    exact lookupLayer_submapAux _ n hn
  · have hr : (sampleFineMap.getSubmap 0 0 1 1).1.resolution = 1 / 10 := by
      simp [GridMap.getSubmap, sampleFineMap]
    have hk : (sampleFineMap.getSubmap 0 0 1 1).1.sizeX = 10 := by
      simp only [GridMap.getSubmap]
      exact ratTruncNat_eq_of_eq_natCast _ 10
        (by norm_num [sampleFineMap, GridMap.lengthX, max_def, min_def])
    unfold GridMap.lengthX
    rw [hk, hr]
    rw [ratTruncNat_eq_of_eq_natCast _ 1 (by norm_num)]
    norm_num

theorem claim_C9_witness :
    lookupLayer (submapForRequest sampleFineState sampleRequest).1.layerData "color"
      = some (zeroMat
          (ratTruncNat (sampleFineState.gridMap.getSubmap sampleRequest.positionX
              sampleRequest.positionY sampleRequest.lengthX
              sampleRequest.lengthY).1.lengthX)
          (ratTruncNat (sampleFineState.gridMap.getSubmap sampleRequest.positionX
              sampleRequest.positionY sampleRequest.lengthX
              sampleRequest.lengthY).1.lengthY)) :=
  (claim_C9 sampleFineState sampleRequest).1 "color" (by decide)

end ElevationMappingCupy
